import Mathlib

/-!
Shallow embedding of the BlinkyTape driver (blinkytape/blinkytape.py).

The driver talks to an LED strip over a serial transport.  We model the
transport as a trace of events (writes of byte strings, output flushes,
input flushes) and the session object as an explicit record.  Python byte
values are Nat, Python ints are Int, and the fallible bytearray
construction is an Option.  An operation returns the post state of the
session object, the transport events it issued, and the exception it
raised, if any (a raise in the source happens before any mutation of the
object, so the post state on an error is whatever had been mutated up to
the raise).
-/

/-- Transport events issued by the driver: serial.write of a byte string,
serial.flush of the outbound buffer, serial.flushInput of the inbound
buffer. -/
inductive Ev where
  | write (bytes : List Nat)
  | flush
  | flushInput
deriving DecidableEq, Repr

/-- The Python exceptions the embedded code can raise. -/
inductive PyError where
  | runtimeError (msg : String)
  | valueError
  | ioError (msg : String)
  | indexError
deriving DecidableEq, Repr

/-- The BlinkyTape session object: the attributes set by the constructor
(blinkytape.py lines 49-52).  The serial handle itself is replaced by the
event trace returned by each operation. -/
structure Session where
  port : String
  ledCount : Int
  buffered : Bool
  buf : List Nat
deriving DecidableEq, Repr

/-- Result of one method call: the post state of the object, the transport
events issued, and the exception raised, if any. -/
structure OpResult where
  state : Session
  trace : List Ev
  err : Option PyError
deriving DecidableEq, Repr

/-- Python byte conversion: an int is a valid byte when 0 <= x < 256,
otherwise bytearray raises ValueError. -/
def toByte (x : Int) : Option Nat :=
  if 0 ≤ x ∧ x < 256 then some x.toNat else none

/-- bytearray((r, g, b)): three byte conversions, failing if any value is
out of the byte range (blinkytape.py lines 66 and 89). -/
def bytearray3 (r g b : Int) : Option (List Nat) :=
  match toByte r, toByte g, toByte b with
  | some x, some y, some z => some [x, y, z]
  | _, _, _ => none

/-- Lower clamp of sendPixel (lines 77-82): if v < 0 then v = 0. -/
def clampLower (x : Int) : Int :=
  if x < 0 then 0 else x

/-- Upper clamp of sendPixel and send_list (lines 60-65 and 83-88):
if v >= 255 then v = 254. -/
def clampUpper (x : Int) : Int :=
  if 255 ≤ x then 254 else x

/-- The byte a channel value is encoded to by sendPixel: lower clamp, then
upper clamp, then byte conversion (always in range after the clamps). -/
def encodeChannel (x : Int) : Nat :=
  (clampUpper (clampLower x)).toNat

/-- The three bytes sendPixel encodes one pixel to. -/
def encode3 (r g b : Int) : List Nat :=
  [encodeChannel r, encodeChannel g, encodeChannel b]

/-- BlinkyTape.sendPixel (lines 70-97): clamp each channel to 0-254, build
the bytearray, then the capacity check len(data)*3 < self.ledCount; on
success append to the accumulator (buffered) or write and flush
(immediate); otherwise raise RuntimeError without touching the object. -/
def sendPixel (s : Session) (r g b : Int) : OpResult :=
  match bytearray3 (clampUpper (clampLower r)) (clampUpper (clampLower g))
      (clampUpper (clampLower b)) with
  | none => ⟨s, [], some PyError.valueError⟩
  | some data =>
    if (data.length : Int) * 3 < s.ledCount then
      if s.buffered then
        ⟨{ s with buf := s.buf ++ data }, [], none⟩
      else
        ⟨s, [Ev.write data, Ev.flush], none⟩
    else
      ⟨s, [], some (PyError.runtimeError "Attempting to set pixel outside range!")⟩

/-- BlinkyTape.show (lines 99-112): write the accumulator followed by the
control triplet (0, 0, 255) and reset the accumulator (buffered), or write
just the control triplet (immediate); then flush output and flush input.
Named show1 because show is a Lean keyword. -/
def show1 (s : Session) : Session × List Ev :=
  let control : List Nat := [0, 0, 255]
  if s.buffered then
    ({ s with buf := [] }, [Ev.write (s.buf ++ control), Ev.flush, Ev.flushInput])
  else
    (s, [Ev.write control, Ev.flush, Ev.flushInput])

/-- One iteration of the send_list loop body (lines 59-66): clamp only the
upper bound of each channel, then bytearray((r, g, b)) — which raises
ValueError if a channel is still negative. -/
def encodeUpperPixel (c : Int × Int × Int) : Option (List Nat) :=
  bytearray3 (clampUpper c.1) (clampUpper c.2.1) (clampUpper c.2.2)

/-- The bytes a pixel is encoded to by the send_list loop when no channel
is negative. -/
def encodeUpper3 (c : Int × Int × Int) : List Nat :=
  [(clampUpper c.1).toNat, (clampUpper c.2.1).toNat, (clampUpper c.2.2).toNat]

/-- The data accumulation of the send_list loop (lines 58-66): concatenate
the encoded triplets; a ValueError anywhere aborts with nothing written. -/
def buildData : List (Int × Int × Int) → Option (List Nat)
  | [] => some []
  | c :: cs =>
    match encodeUpperPixel c, buildData cs with
    | some d, some rest => some (d ++ rest)
    | _, _ => none

/-- BlinkyTape.send_list (lines 57-68): build the concatenated data, write
it in one call, then self.show().  If building the data raises, nothing is
written and the object is untouched. -/
def send_list (s : Session) (colors : List (Int × Int × Int)) : OpResult :=
  match buildData colors with
  | none => ⟨s, [], some PyError.valueError⟩
  | some data => ⟨(show1 s).1, Ev.write data :: (show1 s).2, none⟩

/-- The loop of displayColor: n successive sendPixel calls with the same
color, stopping at the first exception (which propagates). -/
def sendPixelLoop (s : Session) (r g b : Int) : Nat → OpResult
  | 0 => ⟨s, [], none⟩
  | n + 1 =>
    match sendPixel s r g b with
    | ⟨st, tr, some e⟩ => ⟨st, tr, some e⟩
    | ⟨st, tr, none⟩ =>
      match sendPixelLoop st r g b n with
      | ⟨st2, tr2, e2⟩ => ⟨st2, tr ++ tr2, e2⟩

/-- BlinkyTape.displayColor (lines 114-118): sendPixel ledCount times with
the same color, then self.show().  Python range(0, n) is empty for n <= 0,
hence Int.toNat. -/
def displayColor (s : Session) (r g b : Int) : OpResult :=
  match sendPixelLoop s r g b s.ledCount.toNat with
  | ⟨st, tr, some e⟩ => ⟨st, tr, some e⟩
  | ⟨st, tr, none⟩ => ⟨(show1 st).1, tr ++ (show1 st).2, none⟩

/-- Result of the constructor: the outcome (session or exception), the
serial transports opened as (port, baud) pairs, how many times the
port-discovery function listPorts was called, and the transport events
issued. -/
structure InitOutcome where
  result : Except PyError Session
  openedTransports : List (String × Nat)
  listPortsCalls : Nat
  trace : List Ev
deriving Repr

/-- Tail of the constructor (lines 49-55): store the attributes, open the
serial transport at 115200 baud, then self.show(). -/
def initWithPort (p : String) (ledCount : Int) (buffered : Bool)
    (calls : Nat) : InitOutcome :=
  ⟨Except.ok (show1 ⟨p, ledCount, buffered, []⟩).1, [(p, 115200)], calls,
    (show1 ⟨p, ledCount, buffered, []⟩).2⟩

/-- BlinkyTape.__init__ (lines 18-55).  The port-discovery collaborator is
modelled as a function from call index to the candidate list that call
returns, so repeated invocations are observable.  With port=None the source
calls listPorts() once to test emptiness (raising IOError if empty) and
then calls listPorts() a second time to take element [0] — an IndexError
if that second result is empty. -/
def blinkyInit (portArg : Option String) (ledCount : Int) (buffered : Bool)
    (listPortsResults : Nat → List String) : InitOutcome :=
  match portArg with
  | some p => initWithPort p ledCount buffered 0
  | none =>
    if (listPortsResults 0).length = 0 then
      ⟨Except.error (PyError.ioError "BlinkyTape not found!"), [], 1, []⟩
    else
      match (listPortsResults 1).head? with
      | none => ⟨Except.error PyError.indexError, [], 2, []⟩
      | some p => initWithPort p ledCount buffered 2

/-- The session-mutating operations reachable through the public API,
used to state reachability invariants. -/
inductive Op where
  | sendPixelOp (r g b : Int)
  | sendListOp (colors : List (Int × Int × Int))
  | showOp
  | displayColorOp (r g b : Int)

/-- Run one operation, keeping the post state whether or not it raised
(a caller may catch the exception and keep using the object). -/
def runOp (s : Session) : Op → Session
  | Op.sendPixelOp r g b => (sendPixel s r g b).state
  | Op.sendListOp colors => (send_list s colors).state
  | Op.showOp => (show1 s).1
  | Op.displayColorOp r g b => (displayColor s r g b).state

/-- Run a sequence of operations from a state. -/
def runOps (s : Session) : List Op → Session
  | [] => s
  | op :: ops => runOps (runOp s op) ops

/-- A sequence of sendPixel calls, stopping at the first exception. -/
def sendPixels (s : Session) : List (Int × Int × Int) → OpResult
  | [] => ⟨s, [], none⟩
  | c :: cs =>
    match sendPixel s c.1 c.2.1 c.2.2 with
    | ⟨st, tr, some e⟩ => ⟨st, tr, some e⟩
    | ⟨st, tr, none⟩ =>
      match sendPixels st cs with
      | ⟨st2, tr2, e2⟩ => ⟨st2, tr ++ tr2, e2⟩

/-- The byte strings passed to serial.write, in order, extracted from an
event trace. -/
def writeEvents : List Ev → List (List Nat)
  | [] => []
  | Ev.write bs :: rest => bs :: writeEvents rest
  | Ev.flush :: rest => writeEvents rest
  | Ev.flushInput :: rest => writeEvents rest

/-! ### Helper lemmas about the pixel encoding -/

lemma clampLower_nonneg (x : Int) : 0 ≤ clampLower x := by
  unfold clampLower; split <;> omega

lemma clampUpper_bounds (x : Int) (h : 0 ≤ x) :
    0 ≤ clampUpper x ∧ clampUpper x ≤ 254 := by
  unfold clampUpper; split <;> omega

lemma toByte_clamped (x : Int) :
    toByte (clampUpper (clampLower x)) = some (encodeChannel x) := by
  have h2 := clampUpper_bounds (clampLower x) (clampLower_nonneg x)
  unfold toByte encodeChannel
  rw [if_pos ⟨h2.1, by omega⟩]

lemma bytearray3_clamped (r g b : Int) :
    bytearray3 (clampUpper (clampLower r)) (clampUpper (clampLower g))
      (clampUpper (clampLower b)) = some (encode3 r g b) := by
  unfold bytearray3 encode3
  rw [toByte_clamped, toByte_clamped, toByte_clamped]

lemma encodeChannel_le (x : Int) : encodeChannel x ≤ 254 := by
  unfold encodeChannel clampUpper clampLower; split_ifs <;> omega

/-- Closed form of sendPixel: the clamped bytearray always succeeds, so the
call reduces to the capacity test on 9 = len(data)*3 against ledCount. -/
lemma sendPixel_eq (s : Session) (r g b : Int) :
    sendPixel s r g b =
      if 9 < s.ledCount then
        (if s.buffered then
          ⟨{ s with buf := s.buf ++ encode3 r g b }, [], none⟩
        else
          ⟨s, [Ev.write (encode3 r g b), Ev.flush], none⟩)
      else
        ⟨s, [], some (PyError.runtimeError "Attempting to set pixel outside range!")⟩ := by
  unfold sendPixel
  rw [bytearray3_clamped]
  have hlen : ((encode3 r g b).length : Int) * 3 = 9 := by simp [encode3]
  simp only [hlen]

/-- C1: sendPixel fails with the capacity RuntimeError exactly when
ledCount <= 9, independent of the session state, and a failing call leaves
the object (in particular the accumulator) untouched and writes nothing. -/
theorem c1_sendPixel_capacity (s : Session) (r g b : Int) :
    ((sendPixel s r g b).err
        = some (PyError.runtimeError "Attempting to set pixel outside range!")
      ↔ s.ledCount ≤ 9) ∧
    (s.ledCount ≤ 9 →
      (sendPixel s r g b).state = s ∧ (sendPixel s r g b).trace = []) := by
  rw [sendPixel_eq]
  by_cases h : 9 < s.ledCount
  · rw [if_pos h]
    refine ⟨⟨fun he => ?_, fun hle => absurd hle (by omega)⟩, fun hle => absurd hle (by omega)⟩
    by_cases hb : s.buffered <;> simp [hb] at he
  · rw [if_neg h]
    exact ⟨⟨fun _ => by omega, fun _ => rfl⟩, fun _ => ⟨rfl, rfl⟩⟩

/-- Witness for C1 at a concrete failing capacity. -/
theorem c1_witness :
    (sendPixel ⟨"p", 5, true, []⟩ 1 2 3).err
        = some (PyError.runtimeError "Attempting to set pixel outside range!") ∧
    (sendPixel ⟨"p", 5, true, []⟩ 1 2 3).state = ⟨"p", 5, true, []⟩ := by
  obtain ⟨h1, h2⟩ := c1_sendPixel_capacity ⟨"p", 5, true, []⟩ 1 2 3
  exact ⟨h1.mpr (by decide), (h2 (by decide)).1⟩

/-- C4: the per pixel encoding of sendPixel never fails, each output byte
is at most 254, channels at or above 255 map to 254, negative channels map
to 0, and a sendPixel call that passes the capacity test raises nothing. -/
theorem c4_sendPixel_encoding (r g b : Int) :
    bytearray3 (clampUpper (clampLower r)) (clampUpper (clampLower g))
        (clampUpper (clampLower b)) = some (encode3 r g b) ∧
    (∀ x ∈ encode3 r g b, x ≤ 254) ∧
    (∀ x : Int, 255 ≤ x → encodeChannel x = 254) ∧
    (∀ x : Int, x < 0 → encodeChannel x = 0) ∧
    (∀ s : Session, 9 < s.ledCount → (sendPixel s r g b).err = none) := by
  refine ⟨bytearray3_clamped r g b, ?_, ?_, ?_, ?_⟩
  · intro x hx
    simp only [encode3, List.mem_cons, List.not_mem_nil, or_false] at hx
    rcases hx with h | h | h <;> exact h ▸ encodeChannel_le _
  · intro x hx
    unfold encodeChannel clampUpper clampLower; split_ifs <;> omega
  · intro x hx
    unfold encodeChannel clampUpper clampLower; split_ifs <;> omega
  · intro s hs
    rw [sendPixel_eq, if_pos hs]
    by_cases hb : s.buffered <;> simp [hb]

/-- Witness for C4 at the concrete channels 300, -5, 100. -/
theorem c4_witness :
    bytearray3 (clampUpper (clampLower 300)) (clampUpper (clampLower (-5)))
        (clampUpper (clampLower 100)) = some (encode3 300 (-5) 100) ∧
    encodeChannel 300 = 254 ∧ encodeChannel (-5) = 0 := by
  obtain ⟨h1, _, h3, h4, _⟩ := c4_sendPixel_encoding 300 (-5) 100
  exact ⟨h1, h3 300 (by decide), h4 (-5) (by decide)⟩

/-- C6: in immediate mode an accepted sendPixel issues exactly one write of
the 3 encoded bytes followed by exactly one flush, and the object (hence
the accumulator) is unchanged. -/
theorem c6_sendPixel_immediate (s : Session) (r g b : Int)
    (hb : s.buffered = false) (h9 : 9 < s.ledCount) :
    sendPixel s r g b = ⟨s, [Ev.write (encode3 r g b), Ev.flush], none⟩ ∧
    (encode3 r g b).length = 3 := by
  constructor
  · rw [sendPixel_eq, if_pos h9]; simp [hb]
  · simp [encode3]

/-- Witness for C6 on a concrete immediate mode session. -/
theorem c6_witness :
    sendPixel ⟨"p", 60, false, []⟩ 1 2 3
        = ⟨⟨"p", 60, false, []⟩, [Ev.write (encode3 1 2 3), Ev.flush], none⟩ ∧
    (encode3 1 2 3).length = 3 :=
  c6_sendPixel_immediate ⟨"p", 60, false, []⟩ 1 2 3 rfl (by decide)

/-! ### Helper lemmas about show and the constructor -/

lemma show1_state (s : Session) :
    (show1 s).1 = if s.buffered then { s with buf := [] } else s := by
  unfold show1; split <;> rfl

lemma show1_buf (s : Session) :
    (show1 s).1.buf = if s.buffered then [] else s.buf := by
  rw [show1_state]; split <;> rfl

lemma show1_state_empty (s : Session) (h : s.buf = []) : (show1 s).1 = s := by
  rw [show1_state]
  split
  · cases s; simp_all
  · rfl

lemma show1_trace (s : Session) :
    (show1 s).2 = if s.buffered then
        [Ev.write (s.buf ++ [0, 0, 255]), Ev.flush, Ev.flushInput]
      else
        [Ev.write [0, 0, 255], Ev.flush, Ev.flushInput] := by
  unfold show1; split <;> rfl

/-- C10: on a buffered session with an empty accumulator, two successive
show calls issue exactly two writes, each of just the control triplet
(0, 0, 255), and leave the accumulator empty. -/
theorem c10_show_twice (s : Session) (hb : s.buffered = true) (he : s.buf = []) :
    writeEvents ((show1 s).2 ++ (show1 (show1 s).1).2) = [[0, 0, 255], [0, 0, 255]] ∧
    (show1 (show1 s).1).1.buf = [] := by
  have h1 : (show1 s).1 = s := show1_state_empty s he
  rw [h1, show1_trace, show1_buf, hb, he]
  simp [writeEvents]

/-- Witness for C10 on a concrete empty buffered session. -/
theorem c10_witness :
    writeEvents ((show1 ⟨"p", 60, true, []⟩).2
        ++ (show1 (show1 ⟨"p", 60, true, []⟩).1).2) = [[0, 0, 255], [0, 0, 255]] ∧
    (show1 (show1 ⟨"p", 60, true, []⟩).1).1.buf = [] :=
  c10_show_twice ⟨"p", 60, true, []⟩ rfl rfl

/-- C8: constructing with port=None when discovery returns no candidates
raises IOError with message BlinkyTape not found! and opens no transport. -/
theorem c8_open_no_ports (lc : Int) (bufd : Bool) (results : Nat → List String)
    (h : results 0 = []) :
    (blinkyInit none lc bufd results).result
        = Except.error (PyError.ioError "BlinkyTape not found!") ∧
    (blinkyInit none lc bufd results).openedTransports = [] := by
  unfold blinkyInit
  rw [h]
  exact ⟨rfl, rfl⟩

/-- Witness for C8 with a discovery collaborator returning no candidates. -/
theorem c8_witness :
    (blinkyInit none 60 true (fun _ => [])).result
        = Except.error (PyError.ioError "BlinkyTape not found!") ∧
    (blinkyInit none 60 true (fun _ => [])).openedTransports = [] :=
  c8_open_no_ports 60 true (fun _ => []) rfl

/-- C9 counterexample: with a discovery collaborator whose first call
returns the single candidate A and whose second call returns the single
candidate B, the constructor invokes discovery twice and connects to B,
the first candidate of the second invocation, not of the first. -/
theorem c9_counterexample :
    (blinkyInit none 60 true (fun n => if n = 0 then ["A"] else ["B"])).listPortsCalls = 2 ∧
    (blinkyInit none 60 true (fun n => if n = 0 then ["A"] else ["B"])).result
        = Except.ok ⟨"B", 60, true, []⟩ :=
  ⟨rfl, rfl⟩

/-- C9 amended: when discovery yields a candidate, the constructor calls
the discovery collaborator exactly twice — once for the emptiness test and
once more for indexing — and uses the first candidate of the second
invocation as the port. -/
theorem c9_two_calls (lc : Int) (bufd : Bool) (results : Nat → List String)
    (h0 : ¬ (results 0).length = 0) (p : String)
    (h1 : (results 1).head? = some p) :
    (blinkyInit none lc bufd results).listPortsCalls = 2 ∧
    (blinkyInit none lc bufd results).result = Except.ok ⟨p, lc, bufd, []⟩ := by
  unfold blinkyInit
  rw [if_neg h0, h1]
  refine ⟨rfl, ?_⟩
  show (initWithPort p lc bufd 2).result = Except.ok ⟨p, lc, bufd, []⟩
  show Except.ok (show1 ⟨p, lc, bufd, []⟩).1 = Except.ok ⟨p, lc, bufd, []⟩
  rw [show1_state_empty _ rfl]

/-- Witness for C9 amended on a constant one-candidate discovery. -/
theorem c9_witness :
    (blinkyInit none 60 true (fun _ => ["A"])).listPortsCalls = 2 ∧
    (blinkyInit none 60 true (fun _ => ["A"])).result
        = Except.ok ⟨"A", 60, true, []⟩ :=
  c9_two_calls 60 true (fun _ => ["A"]) (by simp) "A" rfl

/-! ### The multiple-of-three accumulator invariant -/

lemma sendPixel_buf_cases (s : Session) (r g b : Int) :
    (sendPixel s r g b).state.buf = s.buf ∨
    (sendPixel s r g b).state.buf = s.buf ++ encode3 r g b := by
  rw [sendPixel_eq]
  split
  · split
    · exact Or.inr rfl
    · exact Or.inl rfl
  · exact Or.inl rfl

lemma sendPixel_state_mod3 (s : Session) (r g b : Int)
    (h : s.buf.length % 3 = 0) :
    (sendPixel s r g b).state.buf.length % 3 = 0 := by
  rcases sendPixel_buf_cases s r g b with hc | hc
  · rw [hc]; exact h
  · rw [hc]; simp [encode3]; omega

lemma sendPixelLoop_state_mod3 (r g b : Int) (n : Nat) :
    ∀ s : Session, s.buf.length % 3 = 0 →
      (sendPixelLoop s r g b n).state.buf.length % 3 = 0 := by
  induction n with
  | zero => intro s h; exact h
  | succ n ih =>
    intro s h
    unfold sendPixelLoop
    split
    · next st tr e heq =>
      have : st = (sendPixel s r g b).state := by rw [heq]
      rw [this] at *
      exact sendPixel_state_mod3 s r g b h
    · next st tr heq =>
      have hst : st = (sendPixel s r g b).state := by rw [heq]
      split
      · next st2 tr2 e2 heq2 =>
        have : st2 = (sendPixelLoop st r g b n).state := by rw [heq2]
        rw [this]
        exact ih st (hst ▸ sendPixel_state_mod3 s r g b h)

lemma show1_state_mod3 (s : Session) (h : s.buf.length % 3 = 0) :
    (show1 s).1.buf.length % 3 = 0 := by
  rw [show1_buf]
  split
  · rfl
  · exact h

lemma runOp_state_mod3 (s : Session) (op : Op) (h : s.buf.length % 3 = 0) :
    (runOp s op).buf.length % 3 = 0 := by
  cases op with
  | sendPixelOp r g b => exact sendPixel_state_mod3 s r g b h
  | sendListOp colors =>
    show (send_list s colors).state.buf.length % 3 = 0
    unfold send_list
    split
    · exact h
    · exact show1_state_mod3 s h
  | showOp => exact show1_state_mod3 s h
  | displayColorOp r g b =>
    show (displayColor s r g b).state.buf.length % 3 = 0
    unfold displayColor
    split
    · next st tr e heq =>
      have : st = (sendPixelLoop s r g b s.ledCount.toNat).state := by rw [heq]
      rw [this]
      exact sendPixelLoop_state_mod3 r g b _ s h
    · next st tr heq =>
      have hst : st = (sendPixelLoop s r g b s.ledCount.toNat).state := by rw [heq]
      exact show1_state_mod3 st (hst ▸ sendPixelLoop_state_mod3 r g b _ s h)

lemma runOps_state_mod3 (ops : List Op) :
    ∀ s : Session, s.buf.length % 3 = 0 → (runOps s ops).buf.length % 3 = 0 := by
  induction ops with
  | nil => intro s h; exact h
  | cons op ops ih => intro s h; exact ih _ (runOp_state_mod3 s op h)

lemma init_ok_buf (portArg : Option String) (lc : Int) (bufd : Bool)
    (results : Nat → List String) (sess : Session)
    (h : (blinkyInit portArg lc bufd results).result = Except.ok sess) :
    sess.buf = [] := by
  have key : ∀ (p : String) (n : Nat),
      (initWithPort p lc bufd n).result = Except.ok sess → sess.buf = [] := by
    intro p n hp
    have hs : (show1 (⟨p, lc, bufd, []⟩ : Session)).1 = sess := by
      simpa [initWithPort] using hp
    rw [← hs, show1_buf]
    split <;> rfl
  cases portArg with
  | some p =>
    unfold blinkyInit at h
    exact key p 0 h
  | none =>
    unfold blinkyInit at h
    by_cases h0 : ((results 0).length = 0)
    · rw [if_pos h0] at h; simp at h
    · rw [if_neg h0] at h
      cases hh : (results 1).head? with
      | none => rw [hh] at h; simp at h
      | some p => rw [hh] at h; exact key p 2 h

/-- C2 counterexample: a buffered session with capacity 10 accepts eleven
sendPixel calls (the capacity test only compares 9 against ledCount), so
the accumulator holds 11 whole pixels, exceeding the capacity of 10, with
no commit having cleared it. -/
theorem c2_counterexample :
    10 < (runOps ⟨"p", 10, true, []⟩
        (List.replicate 11 (Op.sendPixelOp 0 0 0))).buf.length / 3 ∧
    (⟨"p", 10, true, []⟩ : Session).ledCount = 10 := by
  decide

/-- C2 amended: from any session produced by the constructor, under any
sequence of sendPixel, send_list, show and displayColor calls (including
ones whose exceptions the caller catches), the accumulator length stays a
multiple of 3; the pixel count is NOT bounded by the capacity. -/
theorem c2_buf_multiple_of_three (portArg : Option String) (lc : Int)
    (bufd : Bool) (results : Nat → List String) (sess : Session)
    (h : (blinkyInit portArg lc bufd results).result = Except.ok sess)
    (ops : List Op) :
    (runOps sess ops).buf.length % 3 = 0 := by
  have h0 : sess.buf = [] := init_ok_buf portArg lc bufd results sess h
  exact runOps_state_mod3 ops sess (by rw [h0]; rfl)

/-- Witness for C2 amended on a concrete constructed session and a
one-operation sequence. -/
theorem c2_witness :
    (runOps ⟨"p", 60, true, []⟩ [Op.sendPixelOp 1 2 3]).buf.length % 3 = 0 :=
  c2_buf_multiple_of_three (some "p") 60 true (fun _ => [])
    ⟨"p", 60, true, []⟩ rfl [Op.sendPixelOp 1 2 3]

/-! ### Buffered sequences of sendPixel -/

lemma sendPixel_buffered_eq (s : Session) (r g b : Int)
    (hb : s.buffered = true) (h9 : 9 < s.ledCount) :
    sendPixel s r g b = ⟨{ s with buf := s.buf ++ encode3 r g b }, [], none⟩ := by
  rw [sendPixel_eq, if_pos h9]
  simp [hb]

lemma sendPixels_buffered_eq (pixels : List (Int × Int × Int)) :
    ∀ s : Session, s.buffered = true → 9 < s.ledCount →
    sendPixels s pixels =
      ⟨{ s with buf := s.buf ++ (pixels.map fun c => encode3 c.1 c.2.1 c.2.2).flatten },
        [], none⟩ := by
  induction pixels with
  | nil =>
    intro s hb h9
    unfold sendPixels
    simp
  | cons c cs ih =>
    intro s hb h9
    unfold sendPixels
    rw [sendPixel_buffered_eq s c.1 c.2.1 c.2.2 hb h9]
    simp only []
    rw [ih { s with buf := s.buf ++ encode3 c.1 c.2.1 c.2.2 } hb h9]
    simp [List.append_assoc]

/-- C3: on a buffered session with empty accumulator and capacity above 9,
sending any sequence of pixels raises nothing and writes nothing, and the
following show writes exactly the concatenation of the encoded triplets
followed by the control triplet (0, 0, 255), leaving the accumulator
empty. -/
theorem c3_buffered_then_show (pixels : List (Int × Int × Int)) (s : Session)
    (hb : s.buffered = true) (he : s.buf = []) (h9 : 9 < s.ledCount) :
    (sendPixels s pixels).err = none ∧
    (writeEvents ((sendPixels s pixels).trace
        ++ (show1 (sendPixels s pixels).state).2)).flatten
      = (pixels.map fun c => encode3 c.1 c.2.1 c.2.2).flatten ++ [0, 0, 255] ∧
    (show1 (sendPixels s pixels).state).1.buf = [] := by
  rw [sendPixels_buffered_eq pixels s hb h9]
  refine ⟨rfl, ?_, ?_⟩
  · rw [show1_trace]
    simp [hb, he, writeEvents]
  · rw [show1_buf]
    simp [hb]

/-- Witness for C3 on two concrete pixels, one of them out of range. -/
theorem c3_witness :
    (sendPixels ⟨"p", 60, true, []⟩ [(1, 2, 3), (260, -4, 5)]).err = none ∧
    (writeEvents ((sendPixels ⟨"p", 60, true, []⟩ [(1, 2, 3), (260, -4, 5)]).trace
        ++ (show1 (sendPixels ⟨"p", 60, true, []⟩ [(1, 2, 3), (260, -4, 5)]).state).2)).flatten
      = ([(1, 2, 3), (260, -4, 5)].map fun c => encode3 c.1 c.2.1 c.2.2).flatten
          ++ [0, 0, 255] ∧
    (show1 (sendPixels ⟨"p", 60, true, []⟩ [(1, 2, 3), (260, -4, 5)]).state).1.buf = [] :=
  c3_buffered_then_show [(1, 2, 3), (260, -4, 5)] ⟨"p", 60, true, []⟩ rfl rfl (by decide)

/-- C5 counterexample: on a buffered session holding one accumulated pixel
(1, 2, 3), send_list of the single pixel (4, 5, 6) both reads the
accumulator (its bytes appear in the commit write) and modifies it (it is
reset to empty), because send_list ends with self.show(). -/
theorem c5_counterexample :
    (send_list (sendPixel ⟨"p", 60, true, []⟩ 1 2 3).state [(4, 5, 6)]).state.buf
        ≠ (sendPixel ⟨"p", 60, true, []⟩ 1 2 3).state.buf ∧
    (send_list (sendPixel ⟨"p", 60, true, []⟩ 1 2 3).state [(4, 5, 6)]).trace
        = [Ev.write [4, 5, 6], Ev.write [1, 2, 3, 0, 0, 255], Ev.flush,
            Ev.flushInput] := by
  decide

/-- C5 amended: send_list writes the encoded pixel bytes immediately and
never appends them to the accumulator, regardless of mode; but it finishes
with show, so the whole operation is show of the prior state plus one
leading write, and only in immediate mode is the accumulator untouched. -/
theorem c5_send_list_immediate_write (s : Session)
    (colors : List (Int × Int × Int))
    (h : (send_list s colors).err = none) :
    (send_list s colors).state = (show1 s).1 ∧
    (∃ data, buildData colors = some data ∧
      (send_list s colors).trace = Ev.write data :: (show1 s).2) ∧
    (s.buffered = false → (send_list s colors).state.buf = s.buf) := by
  unfold send_list at h ⊢
  cases hbd : buildData colors with
  | none => rw [hbd] at h; simp at h
  | some data =>
    refine ⟨rfl, ⟨data, rfl, rfl⟩, fun hb => ?_⟩
    show (show1 s).1.buf = s.buf
    rw [show1_buf]
    simp [hb]

/-- Witness for C5 amended on a concrete immediate mode session with a
nonempty accumulator. -/
theorem c5_witness :
    (send_list ⟨"p", 60, false, [9]⟩ [(4, 5, 6)]).state
        = (show1 ⟨"p", 60, false, [9]⟩).1 ∧
    (∃ data, buildData [(4, 5, 6)] = some data ∧
      (send_list ⟨"p", 60, false, [9]⟩ [(4, 5, 6)]).trace
          = Ev.write data :: (show1 ⟨"p", 60, false, [9]⟩).2) ∧
    (send_list ⟨"p", 60, false, [9]⟩ [(4, 5, 6)]).state.buf = [9] := by
  obtain ⟨h1, h2, h3⟩ :=
    c5_send_list_immediate_write ⟨"p", 60, false, [9]⟩ [(4, 5, 6)] (by decide)
  exact ⟨h1, h2, h3 rfl⟩

/-! ### The send_list encoding -/

lemma toByte_clampUpper_some (x : Int) (hx : 0 ≤ x) :
    toByte (clampUpper x) = some (clampUpper x).toNat := by
  unfold toByte
  have hb : 0 ≤ clampUpper x ∧ clampUpper x < 256 := by
    unfold clampUpper; split <;> omega
  rw [if_pos hb]

lemma toByte_clampUpper_none (x : Int) (hx : x < 0) :
    toByte (clampUpper x) = none := by
  unfold toByte clampUpper
  rw [if_neg (by omega : ¬ (255 ≤ x))]
  rw [if_neg (by omega : ¬ (0 ≤ x ∧ x < 256))]

lemma encodeUpperPixel_nonneg (c : Int × Int × Int)
    (h1 : 0 ≤ c.1) (h2 : 0 ≤ c.2.1) (h3 : 0 ≤ c.2.2) :
    encodeUpperPixel c = some (encodeUpper3 c) := by
  unfold encodeUpperPixel bytearray3
  rw [toByte_clampUpper_some _ h1, toByte_clampUpper_some _ h2,
      toByte_clampUpper_some _ h3]
  rfl

lemma encodeUpperPixel_neg (c : Int × Int × Int)
    (h : ¬ (0 ≤ c.1 ∧ 0 ≤ c.2.1 ∧ 0 ≤ c.2.2)) :
    encodeUpperPixel c = none := by
  unfold encodeUpperPixel bytearray3
  by_cases h1 : 0 ≤ c.1
  · by_cases h2 : 0 ≤ c.2.1
    · have h3 : c.2.2 < 0 := by
        by_contra hx
        exact h ⟨h1, h2, by omega⟩
      rw [toByte_clampUpper_some _ h1, toByte_clampUpper_some _ h2,
          toByte_clampUpper_none _ h3]
    · rw [toByte_clampUpper_some _ h1, toByte_clampUpper_none _ (by omega)]
  · rw [toByte_clampUpper_none _ (by omega)]

lemma buildData_nonneg : ∀ colors : List (Int × Int × Int),
    (∀ c ∈ colors, 0 ≤ c.1 ∧ 0 ≤ c.2.1 ∧ 0 ≤ c.2.2) →
    buildData colors = some ((colors.map encodeUpper3).flatten) := by
  intro colors
  induction colors with
  | nil => intro _; rfl
  | cons c cs ih =>
    intro h
    have hc := h c (List.mem_cons_self c cs)
    unfold buildData
    rw [encodeUpperPixel_nonneg c hc.1 hc.2.1 hc.2.2,
        ih (fun d hd => h d (List.mem_cons_of_mem c hd))]
    simp

lemma buildData_neg : ∀ colors : List (Int × Int × Int),
    (¬ ∀ c ∈ colors, 0 ≤ c.1 ∧ 0 ≤ c.2.1 ∧ 0 ≤ c.2.2) →
    buildData colors = none := by
  intro colors
  induction colors with
  | nil => intro h; exact absurd (by simp) h
  | cons c cs ih =>
    intro h
    unfold buildData
    by_cases hc : 0 ≤ c.1 ∧ 0 ≤ c.2.1 ∧ 0 ≤ c.2.2
    · have hcs : ¬ ∀ d ∈ cs, 0 ≤ d.1 ∧ 0 ≤ d.2.1 ∧ 0 ≤ d.2.2 := by
        intro hall
        refine h ?_
        intro d hd
        rcases List.mem_cons.mp hd with h1 | h2
        · exact h1 ▸ hc
        · exact hall d h2
      rw [ih hcs]
      cases encodeUpperPixel c <;> rfl
    · rw [encodeUpperPixel_neg c hc]

/-- C7 counterexample: send_list of the single pixel (-1, 0, 0) does not
pass the negative channel through to the transport; it raises ValueError
from the bytearray conversion and writes nothing at all. -/
theorem c7_counterexample :
    (send_list ⟨"p", 60, true, []⟩ [(-1, 0, 0)]).err = some PyError.valueError ∧
    (send_list ⟨"p", 60, true, []⟩ [(-1, 0, 0)]).trace = [] := by
  decide

/-- C7 amended: send_list clamps each channel only at the upper bound
(255 and above becomes 254, values in 0..254 are unchanged); when every
channel is nonnegative it writes the concatenation of the encoded triplets
in one leading write and then performs the commit; a negative channel is
not passed through but raises ValueError with nothing written. -/
theorem c7_send_list_upper_clamp (s : Session)
    (colors : List (Int × Int × Int)) :
    ((∀ c ∈ colors, 0 ≤ c.1 ∧ 0 ≤ c.2.1 ∧ 0 ≤ c.2.2) →
      (send_list s colors).trace
          = Ev.write ((colors.map encodeUpper3).flatten) :: (show1 s).2 ∧
      (send_list s colors).err = none) ∧
    (∀ x : Int, 255 ≤ x → (clampUpper x).toNat = 254) ∧
    (∀ x : Int, 0 ≤ x → x < 255 → (clampUpper x).toNat = x.toNat) ∧
    ((¬ ∀ c ∈ colors, 0 ≤ c.1 ∧ 0 ≤ c.2.1 ∧ 0 ≤ c.2.2) →
      (send_list s colors).err = some PyError.valueError ∧
      (send_list s colors).trace = []) := by
  refine ⟨fun h => ?_, fun x hx => ?_, fun x hx1 hx2 => ?_, fun h => ?_⟩
  · unfold send_list
    rw [buildData_nonneg colors h]
    exact ⟨rfl, rfl⟩
  · unfold clampUpper; rw [if_pos hx]; rfl
  · unfold clampUpper; rw [if_neg (by omega)]
  · unfold send_list
    rw [buildData_neg colors h]
    exact ⟨rfl, rfl⟩

/-- Witness for C7 amended on one concrete pixel with an overflowing
channel. -/
theorem c7_witness :
    (send_list ⟨"p", 60, true, []⟩ [(300, 0, 5)]).trace
        = Ev.write (([((300 : Int), (0 : Int), (5 : Int))].map encodeUpper3).flatten)
            :: (show1 ⟨"p", 60, true, []⟩).2 ∧
    (send_list ⟨"p", 60, true, []⟩ [(300, 0, 5)]).err = none ∧
    (clampUpper 300).toNat = 254 ∧
    (clampUpper 5).toNat = Int.toNat 5 := by
  obtain ⟨h1, h2, h3, _⟩ :=
    c7_send_list_upper_clamp ⟨"p", 60, true, []⟩ [(300, 0, 5)]
  exact ⟨(h1 (by decide)).1, (h1 (by decide)).2, h2 300 (by decide),
    h3 5 (by decide) (by decide)⟩
